import Mathlib

/-!
Verification of the capture-orchestration core of `gphoto_capture_control.py`
(craftyKraken/P4). The Python functions are embedded as executable Lean
definitions: string manipulation is modelled on `String`/`List Char`,
wall-clock durations as rationals, the camera/relay hardware as explicit
oracle inputs, and Python exceptions as `Except` values. Each definition
cites the source lines it embeds.
-/

/-- Whitespace characters removed by Python's `str.strip()` with no argument. -/
def pyIsSpace (c : Char) : Bool :=
  c == ' ' || c == '\t' || c == '\n' || c == '\r' || c == Char.ofNat 11 || c == Char.ofNat 12

/-- Python `s.strip()`: remove leading and trailing whitespace. -/
def pyStrip (s : String) : String :=
  ⟨((s.data.dropWhile pyIsSpace).reverse.dropWhile pyIsSpace).reverse⟩

/-- Whether the first list occurs at the head of the second list. -/
def headMatches [DecidableEq α] : List α → List α → Bool
  | [], _ => true
  | _ :: _, [] => false
  | a :: as, b :: bs => if a = b then headMatches as bs else false

/-- Whether the second list occurs contiguously anywhere inside the first. -/
def containsSeq [DecidableEq α] : List α → List α → Bool
  | [], pat => pat.isEmpty
  | a :: t, pat => headMatches pat (a :: t) || containsSeq t pat

/-- Python's substring test `pat in s`. -/
def containsSub (s pat : String) : Bool := containsSeq s.data pat.data

/-- Split a character list at every occurrence of `c` (the pieces do not
contain `c`; n occurrences yield n+1 pieces). -/
def splitCharList (c : Char) : List Char → List (List Char)
  | [] => [[]]
  | a :: t =>
    if a = c then [] :: splitCharList c t
    else
      match splitCharList c t with
      | h :: r => (a :: h) :: r
      | [] => [[a]]

/-- Python `s.split(c)` for a single-character separator (also the behavior of
`s.split('\n')` used on subprocess output). -/
def pySplitChar (s : String) (c : Char) : List String :=
  (splitCharList c s.data).map (fun l => ⟨l⟩)

/-- Python `s.find(c)`: index of the first occurrence of `c` in `s`, `-1` if absent. -/
def pyFind (s : String) (c : Char) : Int :=
  match List.indexOf? c s.data with
  | some i => (i : Int)
  | none => -1

/-- Python slice `s[i:]`. -/
def sliceFrom (s : String) (i : ℕ) : String := ⟨s.data.drop i⟩

/-- Python slice `s[:i]`. -/
def sliceTo (s : String) (i : ℕ) : String := ⟨s.data.take i⟩

/-- Extraction `row[row.find(':')+1:].strip()` used by `setParameterByValue`
(src lines 255, 278) to read the value the driver reports as current. -/
def currentValueOf (row : String) : String :=
  pyStrip (sliceFrom row ((pyFind row ':') + 1).toNat)

/-- Accumulate the decimal value of a digit list; `none` on a non-digit. -/
def decDigits : List Char → Option ℕ :=
  List.foldlM (fun acc c => if c.isDigit then some (acc * 10 + (c.toNat - 48)) else none) 0

/-- Python `float(s)` on the plain decimal grammar (`digits`, `digits.digits`),
the only forms this program's configuration values use; `none` models the
`ValueError` raised on anything else. -/
def pyFloat (s : String) : Option ℚ :=
  match pySplitChar s '.' with
  | [a] =>
      if a = "" then none
      else (decDigits a.data).map (fun n => (n : ℚ))
  | [a, b] =>
      if a = "" ∧ b = "" then none
      else
        match decDigits a.data, decDigits b.data with
        | some n, some m => some ((n : ℚ) + (m : ℚ) / (10 : ℚ) ^ b.length)
        | _, _ => none
  | _ => none

/-- Loop body of `verifyBulbMode` (src lines 61-68): a stripped row updates the
`verified` flag to `true` when it is nonempty, mentions `Current:` and
contains the substring `bulb`; otherwise the flag is left unchanged. -/
def bulbRowStep (verified : Bool) (row : String) : Bool :=
  if row.length == 0 then verified
  else if containsSub row "Current:" then
    if containsSub row "bulb" then true else verified
  else verified

/-- Embedding of `verifyBulbMode` (src lines 49-69), as a function of the stdout text of
`gphoto2 --get-config shutterspeed`. -/
def verifyBulbMode (output : String) : Bool :=
  ((pySplitChar output '\n').map pyStrip).foldl bulbRowStep false

/-- Condition under which a row of driver output makes `verifyBulbMode` accept. -/
def bulbRowAccepted (row : String) : Bool :=
  !(row.length == 0) && containsSub row "Current:" && containsSub row "bulb"

/-- Stdout texts the three `subprocess.run` calls inside `setParameterByValue`
would produce: the initial `--get-config` read, the `--set-config-value`
write, and the re-read after the write. The physical camera is external, so
these are oracle inputs. -/
structure Device where
  getOutput1 : String
  setOutput : String
  getOutput2 : String
deriving DecidableEq

/-- Embedding of `setParameterByValue` (src lines 215-287). The aperture and ISO
dictionaries are loaded from external reference files
(`80D_aperture_dict`, `80D_iso_dict`), so they are parameters here. The
second component counts the `--set-config-value` commands issued (hardware
writes); the first is the function's boolean return. -/
def setParameterByValue (aperture_dict iso_dict : List (String × String)) (dev : Device)
    (setting value : String) : Bool × ℕ :=
  if ¬ (setting = "aperture" ∨ setting = "iso") then (false, 0)
  else
    let dictionary := if setting = "aperture" then aperture_dict else iso_dict
    if ¬ (value ∈ dictionary.map Prod.snd) then (false, 0)
    else if ((pySplitChar dev.getOutput1 '\n').map pyStrip).any
        (fun row => containsSub row "Current:" && (currentValueOf row == value)) then
      (true, 0)
    else
      let output_lines := (pySplitChar dev.setOutput '\n').map pyStrip
      if ¬ (output_lines.length = 1) then (false, 1)
      else
        match ((pySplitChar dev.getOutput2 '\n').map pyStrip).find?
            (fun row => containsSub row "Current:") with
        | some row => if currentValueOf row = value then (true, 1) else (false, 1)
        | none => (false, 1)

/-- Python `dict` assignment `conf[key] = value`: replace in place if the key
exists, else append (insertion order preserved, as in Python 3.7+). -/
def dictInsert (d : List (String × String)) (k v : String) : List (String × String) :=
  match d with
  | [] => [(k, v)]
  | (k1, v1) :: rest => if k1 = k then (k1, v) :: rest else (k1, v1) :: dictInsert rest k v

/-- Python tuple unpacking `key, value = lst` of a list: succeeds only on
exactly two elements, otherwise raises `ValueError`. -/
def pyUnpack2 (l : List String) : Except String (String × String) :=
  match l with
  | [k, v] => .ok (k, v)
  | [_] => .error "ValueError: not enough values to unpack (expected 2, got 1)"
  | _ => .error "ValueError: too many values to unpack (expected 2)"

/-- Body of the parsing loop of `readConfFile` (src lines 163-169), acting on
one (already stripped) line of the configuration file. -/
def parseConfLine (conf : List (String × String)) (line : String) :
    Except String (List (String × String)) :=
  if pyStrip line = "" then .ok conf
  else
    let line2 := if containsSub line "#" then sliceTo line ((pyFind line '#').toNat) else line
    match pyUnpack2 ((pySplitChar line2 '=').map pyStrip) with
    | .ok (k, v) => .ok (dictInsert conf k v)
    | .error e => .error e

/-- Parsing phase of `readConfFile` (src lines 160-169): strip every line of
the file, then fold the line parser over them. -/
def readConfFileLines (lines : List String) : Except String (List (String × String)) :=
  (lines.map pyStrip).foldlM parseConfLine []

/-- Strict lexicographic order on character lists by code point. -/
def lexLtChars : List Char → List Char → Bool
  | [], [] => false
  | [], _ :: _ => true
  | _ :: _, [] => false
  | a :: as, b :: bs =>
    if a.toNat < b.toNat then true
    else if b.toNat < a.toNat then false
    else lexLtChars as bs

/-- The comparison Python's string sort uses: lexicographic by code point. -/
def pyStrLe (a b : String) : Bool := !(lexLtChars b.data a.data)

/-- Insertion of a string into a sorted list, for Python's `sorted`. -/
def insertSortedStr (x : String) : List String → List String
  | [] => [x]
  | y :: ys => if pyStrLe x y then x :: y :: ys else y :: insertSortedStr x ys

/-- Python `sorted` on a list of strings (lexicographic by code point). -/
def sortStrings : List String → List String
  | [] => []
  | x :: xs => insertSortedStr x (sortStrings xs)

/-- Diagnostics of the quality-control step of `readConfFile`
(src lines 170-187): the source
only `print`s on a mismatch and returns the parsed mapping regardless; the
printed messages are returned here alongside the mapping so the check is
observable. The comparison lists are copied verbatim from the source,
including the unsorted `series` list (src line 178). -/
def confQCMessages (capture_profile : String) (conf : List (String × String)) :
    List String :=
  if capture_profile = "single" then
    (if ¬ (conf.length = 5) then
      ["Mismatch between number of required and specified configurable parameters!"] else []) ++
    (if ¬ (sortStrings (conf.map Prod.fst) =
        ["aperture", "iso", "lights", "shutterspeed", "subject"]) then
      ["Missing a required configurable parameter!"] else [])
  else if capture_profile = "series" then
    (if ¬ (conf.length = 7) then
      ["Mismatch between number of required and specified configurable parameters!"] else []) ++
    (if ¬ (sortStrings (conf.map Prod.fst) =
        ["aperture", "duration", "interval", "iso", "shutterspeed", "subject", "lights"]) then
      ["Missing a required configurable parameter!"] else [])
  else if capture_profile = "dual_series" then
    (if ¬ (conf.length = 9) then
      ["Mismatch between number of required and specified configurable parameters!"] else []) ++
    (if ¬ (sortStrings (conf.map Prod.fst) =
        ["aperture_dark", "aperture_light", "duration", "interval", "iso_dark", "iso_light",
         "shutterspeed_dark", "shutterspeed_light", "subject"]) then
      ["Missing a required configurable parameter!"] else [])
  else ["Unreachable code!"]

/-- Embedding of `readConfFile` (src lines 143-187): parse, then run the print-only
quality-control step, returning the mapping together with whatever
diagnostics were printed. -/
def readConfFile (lines : List String) (capture_profile : String) :
    Except String (List (String × String) × List String) :=
  match readConfFileLines lines with
  | .error e => .error e
  | .ok conf => .ok (conf, confQCMessages capture_profile conf)

/-- Tag assignment of `singleCapture` (src lines 311-314): `_dark` when
`float(exposure_time) >= 5`, else `_light`; `none` when the exposure-time
string is not a valid float. -/
def captureTag (exposure_time : String) : Option String :=
  (pyFloat exposure_time).map (fun q => if 5 ≤ q then "_dark" else "_light")

/-- Artifact-name construction of `singleCapture` (src line 315):
`subject_name + '_' + timestamp + tag + '_exp' + str(exposure_time) + 's_' +
'_f' + aperture + '_iso' + iso` (the exposure time reaches this function as a
configuration string, so `str` is the identity on it). -/
def singleCaptureImageName (subject_name timestamp exposure_time aperture iso : String) :
    Option String :=
  (captureTag exposure_time).map (fun tag =>
    subject_name ++ "_" ++ timestamp ++ tag ++ "_exp" ++ exposure_time ++ "s_" ++ "_f" ++
      aperture ++ "_iso" ++ iso)

/-- Message of the `ValueError` raised by CPython's `time.sleep` on a negative
argument. -/
def sleepErrorMsg : String := "ValueError: sleep length must be non-negative"

/-- Python `time.sleep(t)`: raises `ValueError` when `t` is negative. -/
def pySleep (t : ℚ) : Except String Unit :=
  if t < 0 then .error sleepErrorMsg else .ok ()

/-- Cycle loop of `seriesCapture` (src lines 368-389). Each cycle calls
`singleCapture` (its boolean result is discarded by the source) and then
sleeps `interval - (return_time - call_time)` with no clamping. The list
argument gives each cycle's capture overhead `return_time - call_time`;
the result is the list of per-cycle sleep durations, or the propagated
exception from `time.sleep`. -/
def seriesCapture (interval : ℚ) : List ℚ → Except String (List ℚ)
  | [] => .ok []
  | overhead :: rest =>
    let sleep_interval := interval - overhead
    match pySleep sleep_interval with
    | .error e => .error e
    | .ok _ => (seriesCapture interval rest).map (fun l => sleep_interval :: l)

/-- Per-cycle environment of `dualSeriesCapture` (src lines 405-436): the
timestamp string formatted from the cycle's start time `call_time`
(src lines 414-415), the dark capture's wall-clock overhead
`return_time - call_time`, and the boolean results the two `singleCapture`
calls would report. -/
structure CycleEnv where
  timestamp : String
  darkOverhead : ℚ
  darkSuccess : Bool
  lightSuccess : Bool

/-- Record of one `singleCapture` invocation made by `dualSeriesCapture`:
whether it is the light exposure of the cycle, and the naming-relevant
arguments it was passed. -/
structure CaptureCall where
  isLightExposure : Bool
  timestamp : String
  exposure_time : String
  aperture : String
  iso : String
deriving DecidableEq

/-- Fixed arguments of `dualSeriesCapture` (src lines 391-392). -/
structure DualParams where
  interval : ℚ
  exposure_time_light : String
  exposure_time_dark : String
  aperture_light : String
  aperture_dark : String
  iso_light : String
  iso_dark : String

/-- How a scheduler run ended: loop completed, loop aborted by the early
`return` after a failed light exposure (src lines 430-432), or a Python
exception propagated out of the loop. -/
inductive RunOutcome where
  | completed
  | aborted
  | raised (msg : String)
deriving DecidableEq

/-- Observable result of a `dualSeriesCapture` run: the commanded relay
(light) state when control leaves the function, the `singleCapture` calls
made in order, and how the run ended. -/
structure DualResult where
  light : Bool
  calls : List CaptureCall
  outcome : RunOutcome
deriving DecidableEq

/-- Dark-exposure `singleCapture` call of a cycle (src line 417). -/
def darkCallOf (p : DualParams) (ts : String) : CaptureCall :=
  ⟨false, ts, p.exposure_time_dark, p.aperture_dark, p.iso_dark⟩

/-- Light-exposure `singleCapture` call of a cycle (src line 429). -/
def lightCallOf (p : DualParams) (ts : String) : CaptureCall :=
  ⟨true, ts, p.exposure_time_light, p.aperture_light, p.iso_light⟩

/-- Cycle loop of `dualSeriesCapture` (src lines 405-438), from cycle index
`i` with `n` cycles remaining and the given current relay state. Each cycle:
relay LOW, timestamp generated from the cycle start time, dark capture with
that timestamp (result discarded by the source), relay HIGH,
`time.sleep(interval - darkOverhead - 2)` — which raises `ValueError` when
its argument is negative, with the relay already HIGH — then the light
capture with the same timestamp; a failed light capture returns out of the
loop, otherwise `time.sleep(2)` and the next cycle. -/
def dualSeriesRun (p : DualParams) (env : ℕ → CycleEnv) : ℕ → ℕ → Bool → DualResult
  | _, 0, light => ⟨light, [], .completed⟩
  | i, n + 1, _ =>
    if p.interval - (env i).darkOverhead - 2 < 0 then
      ⟨true, [darkCallOf p (env i).timestamp], .raised sleepErrorMsg⟩
    else if (env i).lightSuccess then
      ⟨(dualSeriesRun p env (i + 1) n true).light,
       darkCallOf p (env i).timestamp :: lightCallOf p (env i).timestamp ::
         (dualSeriesRun p env (i + 1) n true).calls,
       (dualSeriesRun p env (i + 1) n true).outcome⟩
    else
      ⟨true, [darkCallOf p (env i).timestamp, lightCallOf p (env i).timestamp], .aborted⟩

/-- Embedding of `runCloseoutOps` (src lines 440-446): drive the relay output LOW. -/
def runCloseoutOps (_light : Bool) : Bool := false

/-- Observable result of the `__main__` dual-series run: relay state at
process exit, whether `runCloseoutOps` executed, the capture calls made, and
the outcome. -/
structure MainResult where
  light : Bool
  closeoutRan : Bool
  calls : List CaptureCall
  outcome : RunOutcome
deriving DecidableEq

/-- The `__main__` control flow around the scheduler (src lines 448-538 with
the hardcoded `capture_profile = 'dual_series'`): `initRelayControl`
initializes the relay LOW (src line 137), `dualSeriesCapture` runs, and
`runCloseoutOps` is a plain call after it (src line 538) — there is no
`try/finally` in the source, so an exception propagating out of the
scheduler leaves the script before the closeout call, while a normal return
(completion or the abort `return`) reaches it. -/
def mainDualSeries (p : DualParams) (env : ℕ → CycleEnv) (cycles : ℕ) : MainResult :=
  let r := dualSeriesRun p env 0 cycles false
  match r.outcome with
  | .raised m => ⟨r.light, false, r.calls, .raised m⟩
  | o => ⟨runCloseoutOps r.light, true, r.calls, o⟩

/-- Well-formedness of the call trace of a dual-series run: the calls come in
dark/light pairs sharing one timestamp (a trailing lone dark call happens
when the mid-cycle sleep raises). -/
inductive PairedCalls : List CaptureCall → Prop
  | nil : PairedCalls []
  | darkOnly (d : CaptureCall) : d.isLightExposure = false → PairedCalls [d]
  | pair (d l : CaptureCall) (rest : List CaptureCall) :
      d.isLightExposure = false → l.isLightExposure = true →
      d.timestamp = l.timestamp → PairedCalls rest → PairedCalls (d :: l :: rest)

/-- Demonstration parameter block for concrete runs of the dual-series model. -/
def demoParams : DualParams := ⟨60, "2", "10", "7.1", "2.8", "Auto", "400"⟩

/-- Environment whose dark captures leave ample slack in every cycle and whose
captures all succeed. -/
def demoEnvOk : ℕ → CycleEnv := fun _ => ⟨"2024-01-01_12:00:00", 20, true, true⟩

/-- Environment whose first cycle's dark capture overruns the interval, so the
mid-cycle `time.sleep` is called with a negative argument. -/
def demoEnvOverrun : ℕ → CycleEnv := fun _ => ⟨"2024-01-01_12:00:00", 59, true, true⟩

/-- Environment whose light exposures fail (and dark exposures succeed). -/
def demoEnvLightFail : ℕ → CycleEnv := fun _ => ⟨"2024-01-01_12:00:00", 20, true, false⟩

/-- Environment identical to `demoEnvLightFail` except that every dark
exposure also fails. -/
def demoEnvBothFail : ℕ → CycleEnv := fun _ => ⟨"2024-01-01_12:00:00", 20, false, false⟩

/-- Demonstration aperture allow-list (index, value) rows. -/
def demoApertureDict : List (String × String) := [("0", "2.8"), ("1", "4"), ("2", "7.1")]

/-- Demonstration ISO allow-list (index, value) rows. -/
def demoIsoDict : List (String × String) := [("0", "Auto"), ("1", "400")]

/-- Demonstration device whose first `--get-config` read already reports the
value `400` as current. -/
def demoDevice : Device :=
  ⟨"Label: ISO Speed\nType: MENU\nCurrent: 400\nChoice: 0 Auto", "", "Current: 400"⟩

/-- Demonstration single-profile configuration file with one extra key beyond
the required five. -/
def demoConfLines6 : List String :=
  ["aperture = 2.8", "iso = 400", "lights = off", "shutterspeed = 10",
   "subject = S", "extra = x"]

theorem stringLengthZeroIff (s : String) : s.length = 0 ↔ s = "" := by
  constructor
  · intro h
    have hd : s.data = [] := List.length_eq_zero.mp h
    exact String.ext (by rw [hd])
  · intro h
    subst h
    rfl

theorem bulbRowStep_or (acc : Bool) (row : String) :
    bulbRowStep acc row = (acc || bulbRowAccepted row) := by
  simp only [bulbRowStep, bulbRowAccepted]
  cases h1 : (row.length == 0) <;> cases h2 : containsSub row "Current:" <;>
    cases h3 : containsSub row "bulb" <;> cases acc <;> simp [h1, h2, h3]

theorem verifyBulbMode_foldl (l : List String) (acc : Bool) :
    l.foldl bulbRowStep acc = (acc || l.any bulbRowAccepted) := by
  induction l generalizing acc with
  | nil => simp
  | cons r t ih => simp [List.foldl_cons, bulbRowStep_or, ih, Bool.or_assoc]

/-- C8 (amended): `verifyBulbMode` returns true iff some stripped line of the
driver output is nonempty, mentions `Current:` and contains the substring
`bulb` — so any reported current value merely containing `bulb` verifies,
not only the exact value `bulb`. -/
theorem verifyBulbMode_iff_bulb_substring (output : String) :
    verifyBulbMode output = true ↔
      ∃ row ∈ (pySplitChar output '\n').map pyStrip,
        row ≠ "" ∧ containsSub row "Current:" = true ∧ containsSub row "bulb" = true := by
  unfold verifyBulbMode
  rw [verifyBulbMode_foldl]
  simp only [Bool.false_or, List.any_eq_true, bulbRowAccepted]
  constructor
  · rintro ⟨row, hmem, hrow⟩
    simp only [Bool.and_eq_true, Bool.not_eq_true', beq_eq_false_iff_ne] at hrow
    exact ⟨row, hmem, fun he => hrow.1.1 (by rw [he]; rfl), hrow.1.2, hrow.2⟩
  · rintro ⟨row, hmem, hne, hcur, hbulb⟩
    refine ⟨row, hmem, ?_⟩
    have hlen : row.length ≠ 0 := fun h => hne ((stringLengthZeroIff row).mp h)
    simp [hcur, hbulb, hlen]

/-- C8 counterexample: on driver output whose reported current shutter-speed
value is `bulbous` — not exactly `bulb` — `verifyBulbMode` still returns
true, because the source tests `'bulb' in row` as a substring. -/
theorem verifyBulbMode_accepts_bulbous :
    verifyBulbMode "Current: bulbous" = true ∧
      currentValueOf "Current: bulbous" = "bulbous" ∧ ("bulbous" : String) ≠ "bulb" := by
  refine ⟨rfl, rfl, ?_⟩
  decide

/-- C9 (code bug): a line consisting only of a comment is not ignored: it
passes the blank-line check (taken before comment stripping), is truncated
to the empty string, and the unpacking of `''.split('=')` raises
`ValueError`, so `readConfFile` fails instead of returning a mapping. -/
theorem readConfFile_comment_only_line_crashes :
    readConfFileLines ["# some comment"] =
      .error "ValueError: not enough values to unpack (expected 2, got 1)" ∧
    readConfFile ["# some comment"] "single" =
      .error "ValueError: not enough values to unpack (expected 2, got 1)" :=
  ⟨rfl, rfl⟩

/-- C3 counterexample: a `single`-profile configuration with six keys (a
strict superset of the required five) is not rejected: `readConfFile`
returns the full six-key mapping, the mismatch surfacing only as the two
printed diagnostics. -/
theorem readConfFile_superset_accepted :
    readConfFile demoConfLines6 "single" =
      .ok ([("aperture", "2.8"), ("iso", "400"), ("lights", "off"), ("shutterspeed", "10"),
            ("subject", "S"), ("extra", "x")],
           ["Mismatch between number of required and specified configurable parameters!",
            "Missing a required configurable parameter!"]) := rfl

/-- C3 (amended): `readConfFile` checks the key set but never rejects on it:
whenever the file parses, the parsed record is returned for every profile,
and a mismatch produces only printed diagnostics; for the `single` profile
the diagnostics are empty iff the key set is exactly the required five. -/
theorem readConfFile_accepts_any_keyset (lines : List String) (profile : String)
    (conf : List (String × String)) (h : readConfFileLines lines = .ok conf) :
    (∃ msgs, readConfFile lines profile = .ok (conf, msgs)) ∧
    (readConfFile lines "single" = .ok (conf, []) ↔
      conf.length = 5 ∧ sortStrings (conf.map Prod.fst) =
        ["aperture", "iso", "lights", "shutterspeed", "subject"]) := by
  constructor
  · exact ⟨confQCMessages profile conf, by unfold readConfFile; rw [h]⟩
  · by_cases hl : conf.length = 5 <;>
      by_cases hk : sortStrings (conf.map Prod.fst) =
        ["aperture", "iso", "lights", "shutterspeed", "subject"] <;>
      simp [readConfFile, confQCMessages, h, hl, hk]

/-- Demonstration single-profile configuration with exactly the required keys. -/
def demoConfLines5 : List String :=
  ["aperture = 2.8", "iso = 400", "lights = off", "shutterspeed = 10", "subject = S"]

/-- Witness for C3's amended theorem at a concrete configuration: the exact
required key set for profile `single` is returned with no diagnostics. -/
theorem readConfFile_accepts_any_keyset_witness :
    readConfFile demoConfLines5 "single" =
      .ok ([("aperture", "2.8"), ("iso", "400"), ("lights", "off"), ("shutterspeed", "10"),
            ("subject", "S")], []) :=
  (readConfFile_accepts_any_keyset demoConfLines5 "single"
    [("aperture", "2.8"), ("iso", "400"), ("lights", "off"), ("shutterspeed", "10"),
     ("subject", "S")] rfl).2.mpr ⟨rfl, rfl⟩

/-- C2 counterexample: `seriesCapture` with `interval = 60` and a cycle whose
capture overhead is `65` passes the negative remainder `-5` straight to
`time.sleep`, which raises `ValueError`: the sleep is not clamped to zero. -/
theorem seriesCapture_overrun_raises : seriesCapture 60 [65] = .error sleepErrorMsg := by
  norm_num [seriesCapture, pySleep]

theorem seriesCapture_error_of_overrun (interval : ℚ) (pre : List ℚ) (o : ℚ) (rest : List ℚ)
    (hpre : ∀ x ∈ pre, x ≤ interval) (ho : interval < o) :
    seriesCapture interval (pre ++ o :: rest) = .error sleepErrorMsg := by
  induction pre with
  | nil =>
    have hneg : interval - o < 0 := by linarith
    simp [seriesCapture, pySleep, hneg]
  | cons a t ih =>
    have ha : a ≤ interval := hpre a (List.mem_cons_self a t)
    have hpos : ¬ (interval - a < 0) := by linarith
    have := ih (fun x hx => hpre x (List.mem_cons_of_mem a hx))
    simp [seriesCapture, pySleep, hpos, this, Except.map]

/-- C2 (amended): in `seriesCapture` every cycle whose capture overhead is at
most the interval sleeps exactly `interval - overhead`; but a cycle whose
overhead exceeds the interval passes the negative remainder to `time.sleep`
unclamped, raising `ValueError` and ending the run with that exception. -/
theorem seriesCapture_sleep_amounts (interval : ℚ) (overheads : List ℚ) :
    ((∀ o ∈ overheads, o ≤ interval) →
      seriesCapture interval overheads = .ok (overheads.map (fun o => interval - o))) ∧
    (∀ pre o rest, overheads = pre ++ o :: rest → (∀ x ∈ pre, x ≤ interval) → interval < o →
      seriesCapture interval overheads = .error sleepErrorMsg) := by
  constructor
  · intro h
    induction overheads with
    | nil => simp [seriesCapture]
    | cons a t ih =>
      have ha : a ≤ interval := h a (List.mem_cons_self a t)
      have hpos : ¬ (interval - a < 0) := by linarith
      have ht := ih (fun x hx => h x (List.mem_cons_of_mem a hx))
      simp [seriesCapture, pySleep, hpos, ht, Except.map]
  · intro pre o rest heq hpre ho
    subst heq
    exact seriesCapture_error_of_overrun interval pre o rest hpre ho

/-- Witness for C2's amended theorem: interval 60 with a 5-second overhead
sleeps 55 seconds. -/
theorem seriesCapture_sleep_amounts_witness : seriesCapture 60 [5] = .ok [55] := by
  have h := (seriesCapture_sleep_amounts 60 [5]).1 (by norm_num)
  norm_num at h
  exact h

/-- C1 counterexample: a dual-series run whose first cycle's dark capture
leaves less than two seconds of slack makes the mid-cycle `time.sleep` raise
`ValueError` with the relay already commanded HIGH; the exception propagates
past the closeout call at the tail of `__main__`, so the process exits with
the light still ON and `runCloseoutOps` never executed. -/
theorem mainDualSeries_exception_skips_closeout :
    mainDualSeries demoParams demoEnvOverrun 3 =
      ⟨true, false, [darkCallOf demoParams "2024-01-01_12:00:00"], .raised sleepErrorMsg⟩ := by
  norm_num [mainDualSeries, dualSeriesRun, demoParams, demoEnvOverrun]

/-- C1 (amended): `runCloseoutOps` runs and forces the light LOW whenever the
scheduler returns normally — on completion as well as on the mid-run abort
`return` — but it is a plain tail call rather than a guaranteed finalizer:
an exception raised inside a cycle propagates past it. -/
theorem mainDualSeries_closeout_on_normal_return (p : DualParams) (env : ℕ → CycleEnv)
    (cycles : ℕ)
    (h : ∀ m, (dualSeriesRun p env 0 cycles false).outcome ≠ RunOutcome.raised m) :
    (mainDualSeries p env cycles).closeoutRan = true ∧
      (mainDualSeries p env cycles).light = false := by
  unfold mainDualSeries
  cases ho : (dualSeriesRun p env 0 cycles false).outcome with
  | completed => simp [ho, runCloseoutOps]
  | aborted => simp [ho, runCloseoutOps]
  | raised m => exact absurd ho (h m)

/-- Witness for C1's amended theorem: a two-cycle run that completes normally
ends with closeout executed and the light commanded OFF. -/
theorem mainDualSeries_closeout_on_normal_return_witness :
    (mainDualSeries demoParams demoEnvOk 2).closeoutRan = true ∧
      (mainDualSeries demoParams demoEnvOk 2).light = false :=
  mainDualSeries_closeout_on_normal_return demoParams demoEnvOk 2
    (by intro m h; norm_num [dualSeriesRun, demoParams, demoEnvOk] at h; cases h)

/-- C4: in `dualSeriesCapture`, a cycle whose light exposure reports failure
ends the loop at once — the run's call trace stops with that cycle's two
captures and the outcome is the abort `return` — while the dark exposure's
result is discarded by the source: two environments that agree on
timestamps, dark overheads and light-capture results produce identical
runs no matter how their dark-capture results differ. -/
theorem dualSeries_abort_on_light_failure (p : DualParams) (env env2 : ℕ → CycleEnv)
    (i n : ℕ) (light : Bool) :
    ((env i).lightSuccess = false → 0 ≤ p.interval - (env i).darkOverhead - 2 →
      dualSeriesRun p env i (n + 1) light =
        ⟨true, [darkCallOf p (env i).timestamp, lightCallOf p (env i).timestamp],
         .aborted⟩) ∧
    ((∀ j, (env2 j).timestamp = (env j).timestamp ∧
        (env2 j).darkOverhead = (env j).darkOverhead ∧
        (env2 j).lightSuccess = (env j).lightSuccess) →
      dualSeriesRun p env2 i n light = dualSeriesRun p env i n light) := by
  constructor
  · intro hf hs
    have hns : ¬ (p.interval - (env i).darkOverhead - 2 < 0) := by linarith
    simp [dualSeriesRun, hns, hf]
  · intro hagree
    induction n generalizing i light with
    | zero => rfl
    | succ n ih =>
      obtain ⟨h1, h2, h3⟩ := hagree i
      simp only [dualSeriesRun, h1, h2, h3, ih]

/-- Witness for C4: concretely, with ample slack and failing light exposures
the three-cycle run aborts within the first cycle, and flipping every dark
result leaves the run unchanged. -/
theorem dualSeries_abort_on_light_failure_witness :
    dualSeriesRun demoParams demoEnvLightFail 0 3 false =
      ⟨true, [darkCallOf demoParams "2024-01-01_12:00:00",
              lightCallOf demoParams "2024-01-01_12:00:00"], .aborted⟩ ∧
    dualSeriesRun demoParams demoEnvBothFail 0 3 false =
      dualSeriesRun demoParams demoEnvLightFail 0 3 false :=
  ⟨(dualSeries_abort_on_light_failure demoParams demoEnvLightFail demoEnvLightFail 0 2 false).1
      rfl (by norm_num [demoParams, demoEnvLightFail]),
   (dualSeries_abort_on_light_failure demoParams demoEnvLightFail demoEnvBothFail 0 3 false).2
      (fun _ => ⟨rfl, rfl, rfl⟩)⟩

/-- C6: a requested value absent from the selected parameter's allow-list is
rejected (`False`) with no `--set-config-value` command issued. -/
theorem setParameterByValue_rejects_offList (aperture_dict iso_dict : List (String × String))
    (dev : Device) (setting value : String)
    (hs : setting = "aperture" ∨ setting = "iso")
    (hv : value ∉ (if setting = "aperture" then aperture_dict else iso_dict).map Prod.snd) :
    setParameterByValue aperture_dict iso_dict dev setting value = (false, 0) := by
  rcases hs with h | h <;> subst h <;> simp_all [setParameterByValue]

/-- Witness for C6: the value `999` is not in the demonstration ISO allow-list
and is rejected with zero writes. -/
theorem setParameterByValue_rejects_offList_witness :
    setParameterByValue demoApertureDict demoIsoDict demoDevice "iso" "999" = (false, 0) :=
  setParameterByValue_rejects_offList demoApertureDict demoIsoDict demoDevice "iso" "999"
    (Or.inr rfl) (by decide)

/-- C7: when the first `--get-config` read already reports the requested value
as current, `setParameterByValue` returns `True` immediately with zero
`--set-config-value` commands issued — so repeated calls with an
already-applied value never write to the hardware. -/
theorem setParameterByValue_idempotent (aperture_dict iso_dict : List (String × String))
    (dev : Device) (setting value : String)
    (hs : setting = "aperture" ∨ setting = "iso")
    (hv : value ∈ (if setting = "aperture" then aperture_dict else iso_dict).map Prod.snd)
    (hrow : ∃ row ∈ (pySplitChar dev.getOutput1 '\n').map pyStrip,
      containsSub row "Current:" = true ∧ currentValueOf row = value) :
    setParameterByValue aperture_dict iso_dict dev setting value = (true, 0) := by
  have hany : (((pySplitChar dev.getOutput1 '\n').map pyStrip).any
      (fun row => containsSub row "Current:" && (currentValueOf row == value))) = true := by
    rcases hrow with ⟨row, hmem, hcur, hval⟩
    exact List.any_eq_true.mpr ⟨row, hmem, by simp [hcur, hval]⟩
  rcases hs with h | h <;> subst h <;> simp_all [setParameterByValue]

/-- Witness for C7: the demonstration device already reports ISO `400` as
current, so the call verifies with zero writes. -/
theorem setParameterByValue_idempotent_witness :
    setParameterByValue demoApertureDict demoIsoDict demoDevice "iso" "400" = (true, 0) :=
  setParameterByValue_idempotent demoApertureDict demoIsoDict demoDevice "iso" "400"
    (Or.inr rfl) (by decide) ⟨"Current: 400", by decide, by decide, by decide⟩

/-- C5: the artifact name is built deterministically from the capture inputs —
the claim's example inputs produce exactly
`S_2024-01-01_12:00:00_dark_exp10s__f2.8_iso400` — and for every parseable
exposure time the tag is `_dark` iff it is at least 5 seconds (so `2` tags
`_light`). -/
theorem singleCapture_artifact_naming :
    singleCaptureImageName "S" "2024-01-01_12:00:00" "10" "2.8" "400" =
      some "S_2024-01-01_12:00:00_dark_exp10s__f2.8_iso400" ∧
    (∀ e q, pyFloat e = some q → (captureTag e = some "_dark" ↔ 5 ≤ q)) ∧
    captureTag "2" = some "_light" := by
  refine ⟨by decide, ?_, rfl⟩
  intro e q h
  have hne : ("_light" : String) ≠ "_dark" := by decide
  unfold captureTag
  rw [h]
  by_cases h5 : (5 : ℚ) ≤ q
  · simp [h5]
  · simp [h5, hne]

/-- Witness for C5: exposure time `10` parses and is tagged `_dark`. -/
theorem singleCapture_artifact_naming_witness : captureTag "10" = some "_dark" :=
  (singleCapture_artifact_naming.2.1 "10" 10 rfl).mpr (by norm_num)

theorem append_cons_eq_split {α : Type} {c : α} :
    ∀ (l1 l2 r1 r2 : List α), l1 ++ c :: r1 = l2 ++ c :: r2 → c ∉ l1 → c ∉ l2 →
      l1 = l2 ∧ r1 = r2 := by
  intro l1
  induction l1 with
  | nil =>
    intro l2 r1 r2 h h1 h2
    cases l2 with
    | nil => simpa using h
    | cons b t =>
      simp only [List.nil_append, List.cons_append, List.cons.injEq] at h
      exact absurd (by rw [h.1]; exact List.mem_cons_self b t) h2
  | cons a t ih =>
    intro l2 r1 r2 h h1 h2
    cases l2 with
    | nil =>
      simp only [List.nil_append, List.cons_append, List.cons.injEq] at h
      exact absurd (by rw [← h.1]; exact List.mem_cons_self a t) h1
    | cons b t2 =>
      simp only [List.cons_append, List.cons.injEq] at h
      obtain ⟨hab, h2'⟩ := h
      subst hab
      have hrec := ih t2 r1 r2 h2' (fun hc => h1 (List.mem_cons_of_mem a hc))
        (fun hc => h2 (List.mem_cons_of_mem a hc))
      exact ⟨by rw [hrec.1], hrec.2⟩

theorem imageName_parts_eq (S T tagd tagl ed el ad al isod isol : String)
    (htd : tagd = "_dark" ∨ tagd = "_light") (htl : tagl = "_dark" ∨ tagl = "_light")
    (hs1 : 's' ∉ ed.data) (hs2 : 's' ∉ el.data)
    (hu1 : '_' ∉ ad.data) (hu2 : '_' ∉ al.data) :
    (S ++ "_" ++ T ++ tagd ++ "_exp" ++ ed ++ "s_" ++ "_f" ++ ad ++ "_iso" ++ isod =
     S ++ "_" ++ T ++ tagl ++ "_exp" ++ el ++ "s_" ++ "_f" ++ al ++ "_iso" ++ isol) ↔
    (tagd = tagl ∧ ed = el ∧ ad = al ∧ isod = isol) := by
  constructor
  · intro h
    have hd := congrArg String.data h
    have lit1 : ("_" : String).data = ['_'] := rfl
    have lit2 : ("_exp" : String).data = ['_', 'e', 'x', 'p'] := rfl
    have lit3 : ("s_" : String).data = ['s', '_'] := rfl
    have lit4 : ("_f" : String).data = ['_', 'f'] := rfl
    have lit5 : ("_iso" : String).data = ['_', 'i', 's', 'o'] := rfl
    simp only [String.data_append, List.append_assoc, lit1, lit2, lit3, lit4, lit5,
      List.cons_append, List.nil_append] at hd
    have step1 := List.append_cancel_left hd
    simp only [List.cons.injEq, true_and] at step1
    have step2 := List.append_cancel_left step1
    have htageq : tagd = tagl := by
      rcases htd with h' | h' <;> rcases htl with h'' | h'' <;> subst h' <;> subst h''
      · rfl
      · exfalso
        have litdk : ("_dark" : String).data = ['_', 'd', 'a', 'r', 'k'] := rfl
        have litlt : ("_light" : String).data = ['_', 'l', 'i', 'g', 'h', 't'] := rfl
        rw [litdk, litlt] at step2
        simp at step2
      · exfalso
        have litdk : ("_dark" : String).data = ['_', 'd', 'a', 'r', 'k'] := rfl
        have litlt : ("_light" : String).data = ['_', 'l', 'i', 'g', 'h', 't'] := rfl
        rw [litdk, litlt] at step2
        simp at step2
      · rfl
    subst htageq
    have step3 := List.append_cancel_left step2
    simp only [List.cons.injEq, true_and] at step3
    obtain ⟨hE, step4⟩ := append_cons_eq_split ed.data el.data _ _ step3 hs1 hs2
    simp only [List.cons.injEq, true_and] at step4
    obtain ⟨hA, step5⟩ := append_cons_eq_split ad.data al.data _ _ step4 hu1 hu2
    simp only [List.cons.injEq, true_and] at step5
    exact ⟨rfl, String.ext hE, String.ext hA, String.ext step5⟩
  · rintro ⟨h1, h2, h3, h4⟩
    rw [h1, h2, h3, h4]

/-- C10: every dual-series run's call trace pairs each cycle's dark and light
exposures on the single timestamp generated at cycle start (before the dark
capture), so the light artifact embeds the cycle's start time; and within a
cycle the dark and light artifact names — which share subject and timestamp
and differ only in the tag/exposure/aperture/iso fields — are equal exactly
when the exposure-time, aperture and ISO strings coincide and both exposure
times fall on the same side of the 5-second tag cutoff (for parseable
exposure times and aperture strings without an underscore, as camera
aperture values are). -/
theorem dualSeries_shared_timestamp_and_name_collisions :
    (∀ (p : DualParams) (env : ℕ → CycleEnv) (i n : ℕ) (light : Bool),
      PairedCalls (dualSeriesRun p env i n light).calls) ∧
    (∀ (S T ed el ad al isod isol : String) (qd ql : ℚ),
      pyFloat ed = some qd → pyFloat el = some ql →
      's' ∉ ed.data → 's' ∉ el.data → '_' ∉ ad.data → '_' ∉ al.data →
      (singleCaptureImageName S T ed ad isod = singleCaptureImageName S T el al isol ↔
        (ed = el ∧ ad = al ∧ isod = isol ∧ ((5 : ℚ) ≤ qd ↔ (5 : ℚ) ≤ ql)))) := by
  constructor
  · intro p env i n light
    induction n generalizing i light with
    | zero => exact PairedCalls.nil
    | succ n ih =>
      by_cases hb : p.interval - (env i).darkOverhead - 2 < 0
      · simp only [dualSeriesRun, if_pos hb]
        exact PairedCalls.darkOnly _ rfl
      · cases hl : (env i).lightSuccess
        · simp only [dualSeriesRun, if_neg hb, hl, Bool.false_eq_true, if_false]
          exact PairedCalls.pair _ _ _ rfl rfl rfl PairedCalls.nil
        · simp only [dualSeriesRun, if_neg hb, hl, if_true]
          exact PairedCalls.pair _ _ _ rfl rfl rfl (ih (i + 1) true)
  · intro S T ed el ad al isod isol qd ql hd hl hs1 hs2 hu1 hu2
    have htagd : captureTag ed = some (if (5 : ℚ) ≤ qd then "_dark" else "_light") := by
      rw [captureTag, hd]
      rfl
    have htagl : captureTag el = some (if (5 : ℚ) ≤ ql then "_dark" else "_light") := by
      rw [captureTag, hl]
      rfl
    have hiff := imageName_parts_eq S T
      (if (5 : ℚ) ≤ qd then "_dark" else "_light")
      (if (5 : ℚ) ≤ ql then "_dark" else "_light") ed el ad al isod isol
      (by by_cases h : (5 : ℚ) ≤ qd <;> simp [h])
      (by by_cases h : (5 : ℚ) ≤ ql <;> simp [h]) hs1 hs2 hu1 hu2
    simp only [singleCaptureImageName, htagd, htagl, Option.map_some', Option.some.injEq]
    rw [hiff]
    have hdl : ("_dark" : String) ≠ "_light" := by decide
    by_cases h1 : (5 : ℚ) ≤ qd <;> by_cases h2 : (5 : ℚ) ≤ ql <;>
      simp [h1, h2, hdl, hdl.symm]

/-- Witness for C10: a two-cycle run's trace is well-paired, and identical
naming inputs give identical names through the collision criterion. -/
theorem dualSeries_shared_timestamp_and_name_collisions_witness :
    PairedCalls (dualSeriesRun demoParams demoEnvOk 0 2 false).calls ∧
    singleCaptureImageName "S" "2024-01-01_12:00:00" "10" "2.8" "400" =
      singleCaptureImageName "S" "2024-01-01_12:00:00" "10" "2.8" "400" :=
  ⟨dualSeries_shared_timestamp_and_name_collisions.1 demoParams demoEnvOk 0 2 false,
   (dualSeries_shared_timestamp_and_name_collisions.2 "S" "2024-01-01_12:00:00"
      "10" "10" "2.8" "2.8" "400" "400" 10 10 rfl rfl (by decide) (by decide)
      (by decide) (by decide)).mpr ⟨rfl, rfl, rfl, Iff.rfl⟩⟩
